import Mathlib

/-!
Shallow embedding of the MARIS backend (question banks and examination
assembly) and verification of its specification.

The Python sources embedded here are:
* `app/models/question.py`, `app/models/question_bank.py` — the data model;
* `app/api/examinations.py` (`create_examination`) — the examination assembler;
* `app/api/question_banks.py` (`create_bank`, `add_questions_to_bank`,
  `remove_questions_from_bank`) — bank CRUD;
* `app/api/questions.py` (`save_questions_to_bank`);
* `app/crud/crud_bank.py` (`get_by_name`) and the generic CRUD base
  (`get`, `update`, `create`), the latter modelled from the spec since the
  file `app/crud/base.py` is not part of the sources.

SQLAlchemy rows become Lean structures, the database session becomes an
explicit `DB` value, Python `dict`s in request bodies become association
lists in iteration order, and `random.sample` becomes an explicit sampler
parameter constrained by the properties `random.sample` guarantees
(a without-replacement draw: the result is a sub-permutation of the pool,
of exactly the requested length).
-/

namespace Backend2

/-- A row of the `questions` table (`app/models/question.py`).
Nullable columns become `Option`; `options` is the raw stored text
(a JSON string, deserialized on read). -/
structure Question where
  id : Int
  question : String
  answer : Option String
  level : Option String
  type : Option String
  options : Option String
  bank_id : Option Int
deriving DecidableEq, Repr

/-- A row of the `question_banks` table (`app/models/question_bank.py`).
`user_id` is nullable. -/
structure QuestionBank where
  id : Int
  name : String
  user_id : Option Int
deriving DecidableEq, Repr

/-- The relational store visible to the endpoints: the `questions` and
`question_banks` tables, in insertion order. -/
structure DB where
  questions : List Question
  banks : List QuestionBank
deriving DecidableEq, Repr

/-- Modelled from the spec: the Question Store lookup
`get_by_id(id) -> Question | none` (CRUD base `get`, `app/crud/base.py`
is not among the sources). Returns the first row with the given primary
key. -/
def question_crud_get (db : DB) (i : Int) : Option Question :=
  db.questions.find? (fun q => decide (q.id = i))

/-- Modelled from the spec: CRUD base `get` for banks (primary-key
lookup, first matching row). -/
def bank_crud_get (db : DB) (i : Int) : Option QuestionBank :=
  db.banks.find? (fun b => decide (b.id = i))

/-- `CRUDQuestionBank.get_by_name` (`app/crud/crud_bank.py`):
`db.query(QuestionBank).filter(QuestionBank.name == name).first()` —
the first bank with the given name, regardless of owner. -/
def bank_crud_get_by_name (db : DB) (name : String) : Option QuestionBank :=
  db.banks.find? (fun b => decide (b.name = name))

/-- Python `str.capitalize()`: first character uppercased, all remaining
characters lowercased (ASCII is all that occurs here). -/
def pyCapitalize (s : String) : String :=
  match s.data with
  | [] => ""
  | c :: cs => String.mk (c.toUpper :: cs.map Char.toLower)

/-- A JSON value as returned by Python `json.loads`. -/
inductive Json where
  | null : Json
  | bool : Bool → Json
  | num : Int → Json
  | str : String → Json
  | arr : List Json → Json
  | obj : List (String × Json) → Json

/-- JSON insignificant whitespace. -/
def isJsonWs (c : Char) : Bool :=
  c = ' ' || c = '\t' || c = '\n' || c = '\r'

/-- Drop leading JSON whitespace. -/
def skipWs : List Char → List Char
  | [] => []
  | c :: cs => if isJsonWs c then skipWs cs else c :: cs

/-- Parse the body of a JSON string after the opening quote; returns the
decoded characters and the input remaining after the closing quote.
Escapes beyond the single-character ones are out of the modelled
fragment and fail. -/
def parseStringChars : List Char → Option (List Char × List Char)
  | [] => none
  | c :: cs =>
    if c = '"' then some ([], cs)
    else if c = '\\' then
      match cs with
      | [] => none
      | e :: cs' =>
        let esc : Option Char :=
          if e = '"' then some '"'
          else if e = '\\' then some '\\'
          else if e = '/' then some '/'
          else if e = 'n' then some '\n'
          else if e = 't' then some '\t'
          else if e = 'r' then some '\r'
          else none
        match esc with
        | none => none
        | some ch =>
          match parseStringChars cs' with
          | none => none
          | some (body, rest) => some (ch :: body, rest)
    else
      match parseStringChars cs with
      | none => none
      | some (body, rest) => some (c :: body, rest)

/-- Split a maximal run of leading decimal digits from the input. -/
def parseDigits : List Char → List Char × List Char
  | [] => ([], [])
  | c :: cs =>
    if c.isDigit then
      let r := parseDigits cs
      (c :: r.1, r.2)
    else ([], c :: cs)

/-- Decimal digits to a natural number. -/
def digitsToNat (ds : List Char) : Nat :=
  ds.foldl (fun n c => 10 * n + (c.toNat - 48)) 0

/-- `true` when the characters continue a non-integer numeral
(fraction or exponent), which is outside the modelled fragment. -/
def numContinues : List Char → Bool
  | [] => false
  | c :: _ => c = '.' || c = 'e' || c = 'E'

mutual

/-- Fuel-bounded recursive-descent parser for one JSON value. -/
def parseV : Nat → List Char → Option (Json × List Char)
  | 0, _ => none
  | fuel + 1, s =>
    match skipWs s with
    | [] => none
    | c :: cs =>
      if c = 'n' then
        match cs with
        | 'u' :: 'l' :: 'l' :: rest => some (Json.null, rest)
        | _ => none
      else if c = 't' then
        match cs with
        | 'r' :: 'u' :: 'e' :: rest => some (Json.bool true, rest)
        | _ => none
      else if c = 'f' then
        match cs with
        | 'a' :: 'l' :: 's' :: 'e' :: rest => some (Json.bool false, rest)
        | _ => none
      else if c = '"' then
        match parseStringChars cs with
        | some (body, rest) => some (Json.str (String.mk body), rest)
        | none => none
      else if c = '-' then
        match parseDigits cs with
        | ([], _) => none
        | (ds, rest) =>
          if numContinues rest then none
          else some (Json.num (-(digitsToNat ds : Int)), rest)
      else if c.isDigit then
        match parseDigits (c :: cs) with
        | (ds, rest) =>
          if numContinues rest then none
          else some (Json.num (digitsToNat ds : Int), rest)
      else if c = '[' then
        match skipWs cs with
        | ']' :: rest => some (Json.arr [], rest)
        | s' =>
          match parseElems fuel s' with
          | some (xs, rest) => some (Json.arr xs, rest)
          | none => none
      else if c = '{' then
        match skipWs cs with
        | '}' :: rest => some (Json.obj [], rest)
        | s' =>
          match parseMems fuel s' with
          | some (kvs, rest) => some (Json.obj kvs, rest)
          | none => none
      else none

/-- Fuel-bounded parser for the elements of a non-empty JSON array,
positioned at the first element; consumes the closing bracket. -/
def parseElems : Nat → List Char → Option (List Json × List Char)
  | 0, _ => none
  | fuel + 1, s =>
    match parseV fuel s with
    | none => none
    | some (v, rest) =>
      match skipWs rest with
      | ',' :: rest' =>
        match parseElems fuel rest' with
        | some (xs, rest'') => some (v :: xs, rest'')
        | none => none
      | ']' :: rest' => some ([v], rest')
      | _ => none

/-- Fuel-bounded parser for the members of a non-empty JSON object,
positioned at the first key; consumes the closing brace. -/
def parseMems : Nat → List Char → Option (List (String × Json) × List Char)
  | 0, _ => none
  | fuel + 1, s =>
    match skipWs s with
    | '"' :: cs =>
      match parseStringChars cs with
      | none => none
      | some (key, rest) =>
        match skipWs rest with
        | ':' :: rest' =>
          match parseV fuel rest' with
          | none => none
          | some (v, rest'') =>
            match skipWs rest'' with
            | ',' :: r3 =>
              match parseMems fuel r3 with
              | some (kvs, r4) => some ((String.mk key, v) :: kvs, r4)
              | none => none
            | '}' :: r3 => some ([(String.mk key, v)], r3)
            | _ => none
        | _ => none
    | _ => none

end

/-- Model of the Python standard library `json.loads` (an external
collaborator of this repository, not part of its sources), restricted to
the JSON fragment exercised here: `null`, booleans, signed integer
numerals, strings with single-character escapes, arrays and objects.
Inputs outside this fragment (for example non-integer numbers) are
reported as parse failures (`none`). -/
def jsonLoads (s : String) : Option Json :=
  match parseV (s.length + 1) s.data with
  | some (v, rest) => if skipWs rest = [] then some v else none
  | none => none

/-- The errors the embedded endpoints surface (each an
`HTTPException` with a formatted detail string in the Python code);
the data interpolated into the detail string is carried as fields. -/
inductive ApiError where
  | noQuestionsSelected : ApiError
  | quotaMismatch : Int → Int → ApiError
  | noValidQuestions : ApiError
  | notFound : ApiError
  | forbidden : ApiError
  | duplicateBankName : String → ApiError
  | badRequest : String → ApiError
deriving DecidableEq, Repr

/-- One entry of the `questions` list in the response of
`create_examination` (`app/api/examinations.py` lines 87-104):
the question projected to `id`, `question`, `answer`, `level`, `type`,
plus an `options` key only when the stored `options` text is truthy.
`options = none` models the key being absent. -/
structure QuestionPayload where
  id : Int
  question : String
  answer : Option String
  level : Option String
  type : Option String
  options : Option Json

/-- The `examination` object in the response of `create_examination`. -/
structure Examination where
  title : String
  questions : List QuestionPayload
  total_questions : Nat

/-- Output shaping of one selected question
(`app/api/examinations.py` lines 87-104): the base payload always, and
`options` only when `q.options` is truthy (neither NULL nor the empty
string), in which case it is `loads(q.options)` with any deserialization
failure degraded to the empty mapping by the bare `except`. -/
def formatQuestion (loads : String → Option Json) (q : Question) : QuestionPayload :=
  { id := q.id
    question := q.question
    answer := q.answer
    level := q.level
    type := q.type
    options :=
      match q.options with
      | none => none
      | some s =>
        if s = "" then none
        else some (match loads s with
                   | some j => j
                   | none => Json.obj []) }

/-- The `level_groups` partition of `create_examination`
(lines 55-63) read off at one key: grouping the resolved questions by
their raw stored `level` and looking up the key `k` yields exactly the
questions whose stored `level` equals `k` (with `.get`'s default `[]`
when the key is absent). Here `k` is the already-capitalized lookup key
of line 76. -/
def levelPool (qs : List Question) (k : String) : List Question :=
  qs.filter (fun q => decide (q.level = some (pyCapitalize k)))

/-- The `type_groups` partition of `create_examination` (lines 65-69)
read off at one key; it is computed by the endpoint but never used for
selection. -/
def typePool (qs : List Question) (k : Option String) : List Question :=
  qs.filter (fun q => decide (q.type = k))

/-- The body of the selection loop of `create_examination`
(lines 75-83) for one `(level, count)` entry of `bloom_levels`:
look up the pool for the capitalized level, clamp the requested count to
the pool size, and draw that many questions via `random.sample` — the
guarded call (`if actual_count > 0 else []`) is only reached for a
positive effective count. -/
def selectForLevel (sample : List Question → Nat → List Question)
    (qs : List Question) (entry : String × Int) : List Question :=
  let level_qs := levelPool qs entry.1
  let actual_count : Int := min entry.2 (level_qs.length : Int)
  if 0 < actual_count then sample level_qs actual_count.toNat else []

/-- `create_examination` (`app/api/examinations.py`).
`sample` stands for `random.sample` (the process-local random source),
`loads` for `json.loads`; Python dicts of the request body become
association lists in iteration order. -/
def create_examination (sample : List Question → Nat → List Question)
    (loads : String → Option Json) (db : DB)
    (question_ids : List Int) (title : String)
    (bloom_levels question_types : List (String × Int)) :
    Except ApiError Examination :=
  if question_ids = [] then Except.error ApiError.noQuestionsSelected
  else
    let total_bloom := (bloom_levels.map Prod.snd).sum
    let total_types := (question_types.map Prod.snd).sum
    if total_bloom ≠ total_types then
      Except.error (ApiError.quotaMismatch total_bloom total_types)
    else
      let questions := question_ids.filterMap (question_crud_get db)
      if questions = [] then Except.error ApiError.noValidQuestions
      else
        let selected_questions :=
          (bloom_levels.map (selectForLevel sample questions)).flatten
        let result_questions := selected_questions.map (formatQuestion loads)
        Except.ok
          { title := title
            questions := result_questions
            total_questions := result_questions.length }

/-- A deterministic instantiation of the `random.sample` collaborator:
take the first `k` questions of the pool.  It satisfies the contract of
`random.sample` used in the proofs (a without-replacement draw of the
requested length). -/
def takeSample (l : List Question) (k : Nat) : List Question :=
  l.take k

/-- Python truthiness of a nullable integer (`None` and `0` are falsy). -/
def intTruthy : Option Int → Bool
  | none => false
  | some i => !(i == 0)

/-- Python truthiness of a nullable string (`None` and `""` are falsy). -/
def strTruthy : Option String → Bool
  | none => false
  | some s => !(s == "")

/-- Modelled from the spec: CRUD base `update` restricted to the one
field these endpoints update — "for each resolvable id, set its
`bank_id` to the target" (and symmetrically clear it).  Updates the row
with the given primary key. -/
def setBankId (qs : List Question) (qid : Int) (b : Option Int) : List Question :=
  qs.map (fun q => if q.id = qid then { q with bank_id := b } else q)

/-- One iteration of the update loops of `add_questions_to_bank`
(`app/api/question_banks.py` lines 171-176) and of
`save_questions_to_bank` (`app/api/questions.py` lines 141-146): fetch
the question; if it resolves, set its `bank_id` and count the update,
otherwise skip silently.  The accumulator carries the current
`questions` table and `updated_count`. -/
def addStep (bid : Int) (acc : List Question × Nat) (qid : Int) :
    List Question × Nat :=
  match acc.1.find? (fun q => decide (q.id = qid)) with
  | some _ => (setBankId acc.1 qid (some bid), acc.2 + 1)
  | none => acc

/-- One iteration of the update loop of `remove_questions_from_bank`
(`app/api/question_banks.py` lines 202-207): fetch the question; if it
resolves and its current `bank_id` equals the target bank, clear the
`bank_id` and count the update, otherwise skip silently. -/
def removeStep (bid : Int) (acc : List Question × Nat) (qid : Int) :
    List Question × Nat :=
  match acc.1.find? (fun q => decide (q.id = qid)) with
  | some q => if q.bank_id = some bid then (setBankId acc.1 qid none, acc.2 + 1) else acc
  | none => acc

/-- `create_bank` (`app/api/question_banks.py` lines 42-65): reject with
the duplicate-name error only when the *first* stored bank carrying the
requested name is owned by the caller; otherwise insert a new bank owned
by the caller.  `newId` stands for the primary key the store assigns
(CRUD base `create` is modelled from the spec). -/
def create_bank (db : DB) (userId : Int) (name : String) (newId : Int) :
    Except ApiError (DB × QuestionBank) :=
  let existing_bank := bank_crud_get_by_name db name
  let duplicate : Bool :=
    match existing_bank with
    | some b => decide (b.user_id = some userId)
    | none => false
  if duplicate then
    Except.error (ApiError.duplicateBankName name)
  else
    let bank : QuestionBank := { id := newId, name := name, user_id := some userId }
    Except.ok ({ db with banks := db.banks ++ [bank] }, bank)

/-- `add_questions_to_bank` (`app/api/question_banks.py` lines 154-183):
`NotFound` when the bank id does not resolve, `Forbidden` when the
caller is not its owner (both checked before the update loop), then
assign each resolvable question to the bank, returning the new store and
`updated_count`. -/
def add_questions_to_bank (db : DB) (userId : Int) (bankId : Int)
    (question_ids : List Int) : Except ApiError (DB × Nat) :=
  match bank_crud_get db bankId with
  | none => Except.error ApiError.notFound
  | some bank =>
    if bank.user_id ≠ some userId then Except.error ApiError.forbidden
    else
      let r := question_ids.foldl (addStep bankId) (db.questions, 0)
      Except.ok ({ db with questions := r.1 }, r.2)

/-- `remove_questions_from_bank` (`app/api/question_banks.py` lines
185-214): `NotFound` when the bank id does not resolve, `Forbidden` when
the caller is not its owner (both checked before the update loop), then
clear the `bank_id` of each resolvable question currently in the bank,
returning the new store and `updated_count`. -/
def remove_questions_from_bank (db : DB) (userId : Int) (bankId : Int)
    (question_ids : List Int) : Except ApiError (DB × Nat) :=
  match bank_crud_get db bankId with
  | none => Except.error ApiError.notFound
  | some bank =>
    if bank.user_id ≠ some userId then Except.error ApiError.forbidden
    else
      let r := question_ids.foldl (removeStep bankId) (db.questions, 0)
      Except.ok ({ db with questions := r.1 }, r.2)

/-- `save_questions_to_bank` (`app/api/questions.py` lines 106-158).
`bank_id`/`bank_name` are the optional request fields; `newBankId`
stands for the primary key the store would assign to a bank created on
the fly.  The ownership check is
`if bank.user_id and bank.user_id != current_user.id` — a falsy
(NULL or 0) stored `user_id` skips it entirely. -/
def save_questions_to_bank (db : DB) (userId : Int) (question_ids : List Int)
    (bank_id : Option Int) (bank_name : Option String) (newBankId : Int) :
    Except ApiError (DB × Nat) :=
  if question_ids = [] then Except.error (ApiError.badRequest "No question IDs provided")
  else
    let created : DB × Option Int :=
      if !(intTruthy bank_id) && strTruthy bank_name then
        let bank : QuestionBank :=
          { id := newBankId, name := bank_name.getD "", user_id := some userId }
        ({ db with banks := db.banks ++ [bank] }, some newBankId)
      else (db, bank_id)
    let db1 := created.1
    if !(intTruthy created.2) then
      Except.error (ApiError.badRequest "Either bank_id or bank_name must be provided")
    else
      let bid := created.2.getD 0
      match bank_crud_get db1 bid with
      | none => Except.error ApiError.notFound
      | some bank =>
        if intTruthy bank.user_id && !(bank.user_id == some userId) then
          Except.error ApiError.forbidden
        else
          let r := question_ids.foldl (addStep bid) (db1.questions, 0)
          Except.ok ({ db1 with questions := r.1 }, r.2)

/-! ## Helper lemmas -/

/-- `takeSample` draws exactly the requested number of questions when the
pool is large enough — the length guarantee of `random.sample`. -/
theorem takeSample_length : ∀ (l : List Question) (k : Nat),
    k ≤ l.length → (takeSample l k).length = k := by
  intro l k h
  simp [takeSample, List.length_take]
  omega

/-- `takeSample` draws without replacement — the sub-permutation
guarantee of `random.sample`. -/
theorem takeSample_subperm : ∀ (l : List Question) (k : Nat),
    (takeSample l k).Subperm l := by
  intro l k
  exact (List.take_sublist k l).subperm

/-- A sub-permutation of a list maps to a sub-permutation of its image. -/
theorem subperm_map {α β : Type} (f : α → β) {l₁ l₂ : List α}
    (h : l₁.Subperm l₂) : (l₁.map f).Subperm (l₂.map f) := by
  obtain ⟨l, hp, hs⟩ := h
  exact ⟨l.map f, hp.map f, hs.map f⟩

/-- A sub-permutation of a duplicate-free list is duplicate-free. -/
theorem subperm_nodup {α : Type} {l₁ l₂ : List α}
    (h : l₁.Subperm l₂) (hd : l₂.Nodup) : l₁.Nodup := by
  obtain ⟨l, hp, hs⟩ := h
  exact hp.nodup_iff.mp (hs.nodup hd)

/-- A question returned by the primary-key lookup carries the looked-up id. -/
theorem question_crud_get_id {db : DB} {i : Int} {q : Question}
    (h : question_crud_get db i = some q) : q.id = i := by
  have := List.find?_some h
  simpa using this

/-- The ids of the resolved questions are the resolvable ids, in order:
resolution drops exactly the ids the store cannot find. -/
theorem resolved_ids_eq (db : DB) (ids : List Int) :
    (ids.filterMap (question_crud_get db)).map Question.id =
      ids.filter (fun i => (question_crud_get db i).isSome) := by
  induction ids with
  | nil => rfl
  | cons i rest ih =>
    cases h : question_crud_get db i with
    | none => simp [List.filterMap_cons, List.filter_cons, h, ih]
    | some q =>
      have hid := question_crud_get_id h
      simp [List.filterMap_cons, List.filter_cons, h, hid, ih]

/-- Resolving a duplicate-free id list yields questions with
duplicate-free ids. -/
theorem resolved_ids_nodup {db : DB} {ids : List Int} (h : ids.Nodup) :
    ((ids.filterMap (question_crud_get db)).map Question.id).Nodup := by
  rw [resolved_ids_eq]
  exact h.filter _

/-- The questions drawn for one quota entry are a without-replacement
draw from that level's pool. -/
theorem selectForLevel_subperm {sample : List Question → Nat → List Question}
    (hsub : ∀ l k, (sample l k).Subperm l)
    (qs : List Question) (e : String × Int) :
    (selectForLevel sample qs e).Subperm (levelPool qs e.1) := by
  unfold selectForLevel
  simp only []
  split
  · exact hsub _ _
  · exact List.nil_subperm

/-- Any question drawn for a quota entry comes from the resolved set and
carries exactly the capitalized form of that entry's key as its stored
level. -/
theorem mem_selectForLevel {sample : List Question → Nat → List Question}
    (hsub : ∀ l k, (sample l k).Subperm l)
    {qs : List Question} {e : String × Int} {q : Question}
    (hq : q ∈ selectForLevel sample qs e) :
    q ∈ qs ∧ q.level = some (pyCapitalize e.1) := by
  have hmem : q ∈ levelPool qs e.1 :=
    (selectForLevel_subperm hsub qs e).subset hq
  have := List.mem_filter.mp hmem
  simpa using this

/-- The number of questions drawn for one quota entry is the requested
count clamped between zero and the pool size. -/
theorem length_selectForLevel {sample : List Question → Nat → List Question}
    (hlen : ∀ l k, k ≤ l.length → (sample l k).length = k)
    (qs : List Question) (e : String × Int) :
    ((selectForLevel sample qs e).length : Int) =
      max 0 (min e.2 ((levelPool qs e.1).length : Int)) := by
  unfold selectForLevel
  set pool := levelPool qs e.1 with hpool
  set actual : Int := min e.2 (pool.length : Int) with hactual
  by_cases hpos : 0 < actual
  · rw [if_pos hpos]
    have hle : actual.toNat ≤ pool.length := by
      have : actual ≤ (pool.length : Int) := min_le_right _ _
      omega
    rw [hlen pool actual.toNat hle]
    omega
  · rw [if_neg hpos]
    simp only [List.length_nil]
    omega

/-! ## Concrete fixtures used to instantiate the theorems -/

/-- A stored question with the canonical capitalized level. -/
def exQ1 : Question :=
  { id := 1, question := "What is 2+2?", answer := some "4",
    level := some "Remember", type := some "multiple_choice",
    options := none, bank_id := none }

/-- A stored question whose level is in upper case. -/
def exQ2 : Question :=
  { id := 2, question := "Recall the definition.", answer := some "B",
    level := some "REMEMBER", type := some "true_false",
    options := none, bank_id := none }

/-- An example store holding the two questions. -/
def exDB : DB := { questions := [exQ1, exQ2], banks := [] }

/-! ## Claims -/

/-- C10: for every level-quota entry whose requested count is zero or
negative, assembly contributes exactly zero questions for that level and
never errors; the result is `[]` for *every* sampler, so the guarded
`random.sample` call is unreachable when the effective count is not
positive. -/
theorem selectForLevel_nonpositive_count
    (sample : List Question → Nat → List Question)
    (qs : List Question) (level : String) (c : Int) (hc : c ≤ 0) :
    selectForLevel sample qs (level, c) = [] := by
  unfold selectForLevel
  simp only []
  rw [if_neg]
  intro hpos
  have : (0 : Int) ≤ ((levelPool qs level).length : Int) := by positivity
  simp only [min_def] at hpos
  split at hpos <;> omega

/-- Witness for `selectForLevel_nonpositive_count` at count `-1`. -/
theorem selectForLevel_nonpositive_count_witness :
    (-1 : Int) ≤ 0 ∧ selectForLevel takeSample [exQ1] ("Remember", -1) = [] :=
  ⟨by decide, selectForLevel_nonpositive_count takeSample [exQ1] "Remember" (-1) (by decide)⟩

/-- C4: the type quota influences `create_examination` only through its
value total used in the pre-check — two type-quota maps with equal value
sums and otherwise identical inputs (including the same random choices,
i.e. the same sampler) produce identical outputs; the computed by-type
grouping never affects which questions are selected. -/
theorem create_examination_type_quota_only_total
    (sample : List Question → Nat → List Question)
    (loads : String → Option Json) (db : DB)
    (ids : List Int) (title : String)
    (lq tq1 tq2 : List (String × Int))
    (h : (tq1.map Prod.snd).sum = (tq2.map Prod.snd).sum) :
    create_examination sample loads db ids title lq tq1 =
      create_examination sample loads db ids title lq tq2 := by
  unfold create_examination
  rw [h]

/-- Witness for `create_examination_type_quota_only_total` on two
different type-quota maps with the same total. -/
theorem create_examination_type_quota_only_total_witness :
    (([("multiple_choice", (2 : Int))].map Prod.snd).sum =
        ([("true_false", (1 : Int)), ("fill_in_blanks", 1)].map Prod.snd).sum) ∧
      create_examination takeSample jsonLoads exDB [1, 2] "T" [("Remember", 1)]
          [("multiple_choice", 2)] =
        create_examination takeSample jsonLoads exDB [1, 2] "T" [("Remember", 1)]
          [("true_false", 1), ("fill_in_blanks", 1)] :=
  ⟨by decide,
   create_examination_type_quota_only_total takeSample jsonLoads exDB [1, 2] "T"
     [("Remember", 1)] [("multiple_choice", 2)] [("true_false", 1), ("fill_in_blanks", 1)]
     (by decide)⟩

/-- C3 (amended): for every input with *non-empty* `question_ids` in
which the level-quota total differs from the type-quota total,
`create_examination` fails with the quota-mismatch error carrying both
totals. -/
theorem create_examination_quota_mismatch
    (sample : List Question → Nat → List Question)
    (loads : String → Option Json) (db : DB)
    (ids : List Int) (title : String)
    (lq tq : List (String × Int))
    (hne : ids ≠ [])
    (hsum : (lq.map Prod.snd).sum ≠ (tq.map Prod.snd).sum) :
    create_examination sample loads db ids title lq tq =
      Except.error (ApiError.quotaMismatch (lq.map Prod.snd).sum (tq.map Prod.snd).sum) := by
  unfold create_examination
  rw [if_neg hne]
  simp only []
  rw [if_pos hsum]

/-- Witness for `create_examination_quota_mismatch`: the spec's own
example, totals 3 versus 2. -/
theorem create_examination_quota_mismatch_witness :
    (([1] : List Int) ≠ []) ∧
      (([("Remember", (2 : Int)), ("Apply", 1)].map Prod.snd).sum ≠
        ([("multiple_choice", (2 : Int))].map Prod.snd).sum) ∧
      create_examination takeSample jsonLoads exDB [1] "T"
          [("Remember", 2), ("Apply", 1)] [("multiple_choice", 2)] =
        Except.error (ApiError.quotaMismatch 3 2) :=
  ⟨by decide, by decide,
   create_examination_quota_mismatch takeSample jsonLoads exDB [1] "T"
     [("Remember", 2), ("Apply", 1)] [("multiple_choice", 2)] (by decide) (by decide)⟩

/-- C3 counterexample: with empty `question_ids` and mismatched totals
(3 versus 2), `create_examination` fails with the empty-selection error,
not the quota-mismatch error — the emptiness check runs first, so
mismatched totals do not *always* fail with `QuotaMismatch`. -/
theorem create_examination_mismatch_not_always_quota_error :
    create_examination takeSample jsonLoads exDB [] "T"
        [("Remember", 2), ("Apply", 1)] [("multiple_choice", 2)] =
      Except.error ApiError.noQuestionsSelected ∧
    ApiError.noQuestionsSelected ≠ ApiError.quotaMismatch 3 2 :=
  ⟨rfl, by decide⟩

/-- C2 (amended): the `level_groups` partition is keyed by each
question's stored `level` verbatim; case normalization (Python
`str.capitalize`) is applied to the *quota key* at lookup instead, so a
question belongs to the pool drawn from for quota key `k` exactly when
its stored level is literally `capitalize(k)`. -/
theorem levelPool_mem_iff (qs : List Question) (k : String) (q : Question) :
    q ∈ levelPool qs k ↔ q ∈ qs ∧ q.level = some (pyCapitalize k) := by
  simp [levelPool, List.mem_filter]

/-- C2 counterexample: a stored level that differs from the quota key
only in letter case (`"REMEMBER"` versus key `"Remember"`) is *not* in
the pool drawn from for that key, and end-to-end the question is never
selected: the claim's case-normalized partition of stored levels does
not hold. -/
theorem levelPool_case_mismatch_counterexample :
    exQ2.level = some "REMEMBER" ∧
    "REMEMBER".data.map Char.toLower = "Remember".data.map Char.toLower ∧
    levelPool [exQ2] "Remember" = [] ∧
    create_examination takeSample jsonLoads exDB [2] "T"
        [("Remember", 1)] [("multiple_choice", 1)] =
      Except.ok { title := "T", questions := [], total_questions := 0 } :=
  ⟨rfl, by decide, rfl, rfl⟩

/-- C1 (amended): for every non-empty duplicate-free `question_ids` in
which every id resolves, and quota maps with equal value sums,
`create_examination` succeeds, the selected questions are appended in
iteration order of the level quota's entries, and `total_questions`
equals the sum over the level-quota entries `(l, c)` of
`max(0, min(c, pool(l)))`, where `pool(l)` counts the resolved questions
whose stored level the assembly matches against `l` (the capitalized
form of `l`).  The clamp at zero is forced: a negative requested count
contributes zero selected questions, not a negative summand. -/
theorem create_examination_total_questions
    (sample : List Question → Nat → List Question)
    (hlen : ∀ l k, k ≤ l.length → (sample l k).length = k)
    (loads : String → Option Json) (db : DB)
    (ids : List Int) (title : String)
    (lq tq : List (String × Int))
    (hne : ids ≠ [])
    (hres : ∀ i ∈ ids, (question_crud_get db i).isSome)
    (hnd : ids.Nodup)
    (hsum : (lq.map Prod.snd).sum = (tq.map Prod.snd).sum) :
    ∃ exam, create_examination sample loads db ids title lq tq = Except.ok exam ∧
      exam.questions =
        ((lq.map (selectForLevel sample (ids.filterMap (question_crud_get db)))).flatten).map
          (formatQuestion loads) ∧
      (exam.total_questions : Int) =
        (lq.map (fun e =>
          max 0 (min e.2
            (((levelPool (ids.filterMap (question_crud_get db)) e.1).length : Int))))).sum := by
  have hq : ids.filterMap (question_crud_get db) ≠ [] := by
    cases ids with
    | nil => exact absurd rfl hne
    | cons i rest =>
      have hi := hres i (by simp)
      obtain ⟨q, hq⟩ := Option.isSome_iff_exists.mp hi
      simp [List.filterMap_cons, hq]
  unfold create_examination
  rw [if_neg hne]
  simp only []
  rw [if_neg (not_not_intro hsum), if_neg hq]
  refine ⟨_, rfl, rfl, ?_⟩
  simp only [List.length_map, List.length_flatten, List.map_map]
  rw [Nat.cast_list_sum, List.map_map]
  refine congrArg List.sum (List.map_congr_left (fun e _ => ?_))
  simpa using
    length_selectForLevel hlen (ids.filterMap (question_crud_get db)) e

/-- Witness for `create_examination_total_questions`: both questions of
the example store are requested, and the quota asks for two `Remember`
questions while the pool for that key holds one, so exactly one is
selected. -/
theorem create_examination_total_questions_witness :
    (([1, 2] : List Int) ≠ [] ∧ ([1, 2] : List Int).Nodup) ∧
      (∃ exam,
        create_examination takeSample jsonLoads exDB [1, 2] "T"
            [("Remember", 2)] [("multiple_choice", 2)] = Except.ok exam ∧
          exam.questions =
            ((([("Remember", (2 : Int))]).map
                (selectForLevel takeSample (([1, 2] : List Int).filterMap (question_crud_get exDB)))).flatten).map
              (formatQuestion jsonLoads) ∧
          (exam.total_questions : Int) =
            (([("Remember", (2 : Int))]).map (fun e =>
              max 0 (min e.2
                (((levelPool (([1, 2] : List Int).filterMap (question_crud_get exDB)) e.1).length : Int))))).sum) :=
  ⟨⟨by decide, by decide⟩,
   create_examination_total_questions takeSample takeSample_length jsonLoads exDB
     [1, 2] "T" [("Remember", 2)] [("multiple_choice", 2)]
     (by decide) (by decide) (by decide) (by decide)⟩

/-- C1 counterexample: with the (equal) quota totals negative, assembly
succeeds with `total_questions = 0`, while the claimed formula
`sum(min(quota[l], pool[l]))` evaluates to `-1`: the claim as stated
fails on quota maps with negative values. -/
theorem create_examination_total_questions_counterexample :
    (([1] : List Int) ≠ []) ∧
    create_examination takeSample jsonLoads exDB [1] "T"
        [("Remember", -1)] [("multiple_choice", -1)] =
      Except.ok { title := "T", questions := [], total_questions := 0 } ∧
    ([(("Remember" : String), (-1 : Int))].map (fun e =>
        min e.2
          (((levelPool (([1] : List Int).filterMap (question_crud_get exDB)) e.1).length : Int)))).sum = -1 ∧
    ((0 : Int) ≠ -1) :=
  ⟨by decide, rfl, by decide, by decide⟩

/-- Core of the de-duplication argument: when the resolved questions
have duplicate-free ids and the capitalized level-quota keys are
pairwise distinct, the concatenated per-level draws contain no question
id twice — each draw is without replacement inside one pool and the
pools of distinct capitalized keys are disjoint. -/
theorem selected_ids_nodup
    {sample : List Question → Nat → List Question}
    (hsub : ∀ l k, (sample l k).Subperm l)
    (qs : List Question) (lq : List (String × Int))
    (hq : (qs.map Question.id).Nodup)
    (hkeys : (lq.map (fun e => pyCapitalize e.1)).Nodup) :
    (((lq.map (selectForLevel sample qs)).flatten).map Question.id).Nodup := by
  rw [List.map_flatten, List.map_map]
  rw [List.nodup_flatten]
  constructor
  · intro l hl
    obtain ⟨e, _, rfl⟩ := List.mem_map.mp hl
    have h2 : (selectForLevel sample qs e).Subperm qs :=
      (selectForLevel_subperm hsub qs e).trans (List.filter_sublist qs).subperm
    exact subperm_nodup (subperm_map Question.id h2) hq
  · rw [List.pairwise_map]
    have hp : List.Pairwise (fun e1 e2 => pyCapitalize e1.1 ≠ pyCapitalize e2.1) lq :=
      List.pairwise_map.mp hkeys
    refine hp.imp ?_
    intro e1 e2 hne x hx1 hx2
    obtain ⟨q1, hq1, hq1x⟩ := List.mem_map.mp hx1
    obtain ⟨q2, hq2, hq2x⟩ := List.mem_map.mp hx2
    obtain ⟨hq1m, hq1l⟩ := mem_selectForLevel hsub hq1
    obtain ⟨hq2m, hq2l⟩ := mem_selectForLevel hsub hq2
    have heq : q1 = q2 :=
      List.inj_on_of_nodup_map hq hq1m hq2m (by rw [hq1x, hq2x])
    have hlv : some (pyCapitalize e1.1) = some (pyCapitalize e2.1) := by
      rw [← hq1l, heq, hq2l]
    exact hne (Option.some.inj hlv)

/-- C5 (amended): when `question_ids` contains no id twice and the
level-quota keys have pairwise distinct capitalized forms, the assembled
examination's questions list contains no question identifier more than
once (for any without-replacement sampler).  Both restrictions are
forced: a duplicated input id puts the same stored question into its
pool twice, and two quota keys with the same capitalized form draw
twice, independently, from the same pool. -/
theorem create_examination_nodup_ids
    (sample : List Question → Nat → List Question)
    (hsub : ∀ l k, (sample l k).Subperm l)
    (loads : String → Option Json) (db : DB)
    (ids : List Int) (title : String)
    (lq tq : List (String × Int)) (exam : Examination)
    (hnd : ids.Nodup)
    (hkeys : (lq.map (fun e => pyCapitalize e.1)).Nodup)
    (hok : create_examination sample loads db ids title lq tq = Except.ok exam) :
    (exam.questions.map QuestionPayload.id).Nodup := by
  unfold create_examination at hok
  split at hok
  · exact Except.noConfusion hok
  · simp only [] at hok
    split at hok
    · exact Except.noConfusion hok
    · split at hok
      · exact Except.noConfusion hok
      · have hex := (Except.ok.injEq _ _).mp hok
        subst hex
        simp only [List.map_map]
        have hcomp :
            (QuestionPayload.id ∘ formatQuestion loads) = Question.id := rfl
        rw [hcomp]
        exact selected_ids_nodup hsub _ lq (resolved_ids_nodup hnd) hkeys

/-- Concrete examination used to instantiate
`create_examination_nodup_ids`. -/
def exExam1 : Examination :=
  { title := "T"
    questions := [{ id := 1, question := "What is 2+2?", answer := some "4",
                    level := some "Remember", type := some "multiple_choice",
                    options := none }]
    total_questions := 1 }

/-- Witness for `create_examination_nodup_ids` on a concrete run that
selects one question. -/
theorem create_examination_nodup_ids_witness :
    (([1, 2] : List Int).Nodup ∧
        (([("Remember", (1 : Int))]).map (fun e => pyCapitalize e.1)).Nodup) ∧
      (exExam1.questions.map QuestionPayload.id).Nodup :=
  ⟨⟨by decide, by decide⟩,
   create_examination_nodup_ids takeSample takeSample_subperm jsonLoads exDB
     [1, 2] "T" [("Remember", 1)] [("true_false", 1)] exExam1
     (by decide) (by decide) rfl⟩

/-- C5 counterexample: with `question_ids = [1, 1]` the same stored
question enters its level pool twice, a two-element without-replacement
draw returns both copies, and the assembled examination lists question
id 1 twice — on inputs with duplicated ids the claim fails. -/
theorem create_examination_duplicate_ids_counterexample :
    create_examination takeSample jsonLoads exDB [1, 1] "T"
        [("Remember", 2)] [("multiple_choice", 2)] =
      Except.ok { title := "T"
                  questions := [{ id := 1, question := "What is 2+2?", answer := some "4",
                                  level := some "Remember", type := some "multiple_choice",
                                  options := none },
                                { id := 1, question := "What is 2+2?", answer := some "4",
                                  level := some "Remember", type := some "multiple_choice",
                                  options := none }]
                  total_questions := 2 } ∧
    ¬ (([{ id := 1, question := "What is 2+2?", answer := some "4",
           level := some "Remember", type := some "multiple_choice",
           options := (none : Option Json) },
         { id := 1, question := "What is 2+2?", answer := some "4",
           level := some "Remember", type := some "multiple_choice",
           options := none }] : List QuestionPayload).map QuestionPayload.id).Nodup :=
  ⟨rfl, by decide⟩

/-- An example bank owned by user 1. -/
def exBank1 : QuestionBank := { id := 1, name := "Bank A", user_id := some 1 }

/-- An example store with one question and one owned bank. -/
def exDB2 : DB := { questions := [exQ1], banks := [exBank1] }

/-- C7: for every `add_questions_to_bank` or
`remove_questions_from_bank` call on an existing bank by a caller who is
not the bank's owner, the operation fails with `Forbidden`.  The error
is returned before the update loop runs, so no new store is produced and
no question's `bank_id` (nor any other stored state) changes. -/
theorem bank_ops_forbidden_for_non_owner
    (db : DB) (userId bankId : Int) (qids : List Int) (bank : QuestionBank)
    (hget : bank_crud_get db bankId = some bank)
    (hown : bank.user_id ≠ some userId) :
    add_questions_to_bank db userId bankId qids = Except.error ApiError.forbidden ∧
      remove_questions_from_bank db userId bankId qids = Except.error ApiError.forbidden := by
  unfold add_questions_to_bank remove_questions_from_bank
  rw [hget]
  exact ⟨by simp [hown], by simp [hown]⟩

/-- Witness for `bank_ops_forbidden_for_non_owner`: user 2 calls both
operations on user 1's bank. -/
theorem bank_ops_forbidden_for_non_owner_witness :
    (bank_crud_get exDB2 1 = some exBank1 ∧ exBank1.user_id ≠ some 2) ∧
      (add_questions_to_bank exDB2 2 1 [1] = Except.error ApiError.forbidden ∧
        remove_questions_from_bank exDB2 2 1 [1] = Except.error ApiError.forbidden) :=
  ⟨⟨rfl, by decide⟩,
   bank_ops_forbidden_for_non_owner exDB2 2 1 [1] exBank1 rfl (by decide)⟩

/-- A store in which two different users own banks with the same name
`"X"`, the other user's bank coming first. -/
def exDB6 : DB :=
  { questions := []
    banks := [{ id := 1, name := "X", user_id := some 1 },
              { id := 2, name := "X", user_id := some 2 }] }

/-- C6 evaluated at the failing input: user 2 already owns a bank named
`"X"` (bank 2), yet `create_bank` succeeds and inserts a third bank
named `"X"` for user 2 — `get_by_name` returns only the *first* bank
with that name (bank 1, owned by user 1), so the duplicate-name check
compares ownership against the wrong bank and does not reject. -/
theorem create_bank_duplicate_name_not_rejected :
    ({ id := 2, name := "X", user_id := some 2 } : QuestionBank) ∈ exDB6.banks ∧
      create_bank exDB6 2 "X" 3 =
        Except.ok
          ({ questions := []
             banks := [{ id := 1, name := "X", user_id := some 1 },
                       { id := 2, name := "X", user_id := some 2 },
                       { id := 3, name := "X", user_id := some 2 }] },
           { id := 3, name := "X", user_id := some 2 }) :=
  ⟨by decide, rfl⟩

/-- A stored question whose `options` text is valid JSON but not a
mapping. -/
def exQ8arr : Question :=
  { id := 8, question := "Pick one.", answer := none,
    level := some "Apply", type := some "multiple_choice",
    options := some "[]", bank_id := none }

/-- A stored question whose `options` text is not valid JSON at all. -/
def exQ8bad : Question :=
  { id := 9, question := "Pick one.", answer := none,
    level := some "Apply", type := some "multiple_choice",
    options := some "not json", bank_id := none }

/-- C8 (amended): the output payload of a selected question carries an
`options` value exactly when the stored `options` field is truthy
(neither NULL nor empty), and when the stored text *fails to
deserialize* the payload's `options` is the empty mapping; the formatter
is a total function, so deserialization failure never raises out of
assembly.  (Text that deserializes to a non-mapping JSON value is passed
through as deserialized, not replaced by the empty mapping.) -/
theorem formatQuestion_options_fallback
    (loads : String → Option Json) (q : Question) :
    ((formatQuestion loads q).options.isSome = strTruthy q.options) ∧
      (∀ s, q.options = some s → s ≠ "" → loads s = none →
        (formatQuestion loads q).options = some (Json.obj [])) := by
  constructor
  · cases hop : q.options with
    | none => simp [formatQuestion, strTruthy, hop]
    | some s =>
      by_cases hs : s = ""
      · simp [formatQuestion, strTruthy, hop, hs]
      · simp [formatQuestion, strTruthy, hop, hs]
  · intro s hop hs hl
    simp [formatQuestion, hop, hs, hl]

/-- Witness for `formatQuestion_options_fallback`: a stored `options`
text that is not valid JSON degrades to the empty mapping. -/
theorem formatQuestion_options_fallback_witness :
    jsonLoads "not json" = none ∧
      (formatQuestion jsonLoads exQ8bad).options = some (Json.obj []) :=
  ⟨rfl,
   (formatQuestion_options_fallback jsonLoads exQ8bad).2 "not json" rfl (by decide) rfl⟩

/-- C8 counterexample: the stored text `"[]"` is non-empty and is not a
serialized *mapping*, yet it deserializes successfully, so the payload's
`options` is the empty *list*, not the empty mapping — only
deserialization *failure* degrades to the empty mapping. -/
theorem formatQuestion_options_nonmapping_counterexample :
    exQ8arr.options = some "[]" ∧
      (formatQuestion jsonLoads exQ8arr).options = some (Json.arr []) ∧
      Json.arr [] ≠ Json.obj [] :=
  ⟨rfl, rfl, fun h => Json.noConfusion h⟩

/-- Re-pointing a question's bank does not change the table's ids. -/
theorem setBankId_ids (qs : List Question) (qid : Int) (b : Option Int) :
    (setBankId qs qid b).map Question.id = qs.map Question.id := by
  unfold setBankId
  rw [List.map_map]
  refine List.map_congr_left (fun q _ => ?_)
  by_cases h : q.id = qid <;> simp [h]

/-- Closed form of the update loop shared by `add_questions_to_bank` and
`save_questions_to_bank`: after folding `addStep` over the requested
ids, every stored question whose id occurs among them points at the
target bank (unresolvable ids touch nothing — a stored question always
resolves by its own id), and the update counter advances once per
requested id that resolves against the table. -/
theorem foldl_addStep (bid : Int) (qids : List Int) (qs : List Question) (n : Nat) :
    qids.foldl (addStep bid) (qs, n) =
      (qs.map (fun q => if q.id ∈ qids then { q with bank_id := some bid } else q),
        n + qids.countP (fun i => decide (i ∈ qs.map Question.id))) := by
  induction qids generalizing qs n with
  | nil =>
    simp only [List.foldl_nil, List.not_mem_nil, if_false, List.countP_nil, Nat.add_zero]
    rw [List.map_id']
  | cons qid rest ih =>
    rw [List.foldl_cons]
    cases hf : qs.find? (fun q => decide (q.id = qid)) with
    | none =>
      have hstep : addStep bid (qs, n) qid = (qs, n) := by
        unfold addStep
        rw [hf]
      have hnm : qid ∉ qs.map Question.id := by
        intro hq
        obtain ⟨q, hqm, hqi⟩ := List.mem_map.mp hq
        have := List.find?_eq_none.mp hf q hqm
        simp [hqi] at this
      rw [hstep, ih]
      refine congrArg₂ Prod.mk ?_ ?_
      · refine List.map_congr_left (fun q hq => ?_)
        have hne : q.id ≠ qid := fun h => hnm (h ▸ List.mem_map_of_mem Question.id hq)
        simp [List.mem_cons, hne]
      · rw [List.countP_cons]
        simp [hnm]
    | some q0 =>
      have hstep : addStep bid (qs, n) qid = (setBankId qs qid (some bid), n + 1) := by
        unfold addStep
        rw [hf]
      have hq0 : q0.id = qid := by
        have := List.find?_some hf
        simpa using this
      have hmem : qid ∈ qs.map Question.id :=
        hq0 ▸ List.mem_map_of_mem Question.id (List.mem_of_find?_eq_some hf)
      rw [hstep, ih]
      refine congrArg₂ Prod.mk ?_ ?_
      · unfold setBankId
        rw [List.map_map]
        refine List.map_congr_left (fun q hq => ?_)
        by_cases h1 : q.id = qid
        · simp only [Function.comp_apply, if_pos h1, List.mem_cons, h1, true_or, if_true]
          split <;> rfl
        · simp [h1, List.mem_cons]
      · rw [setBankId_ids, List.countP_cons]
        have hd : (decide (qid ∈ qs.map Question.id)) = true := by simp [hmem]
        rw [hd, if_pos rfl]
        omega

/-- An example bank whose stored `user_id` is NULL. -/
def exBankNull : QuestionBank := { id := 5, name := "open", user_id := none }

/-- An example store holding one question and the NULL-owner bank. -/
def exDB9 : DB := { questions := [exQ1], banks := [exBankNull] }

/-- C9: for every existing bank whose `user_id` is NULL,
`save_questions_to_bank` invoked by any authenticated user skips the
ownership check entirely — the condition
`bank.user_id and bank.user_id != current_user.id` is falsy, so the call
never fails with `Forbidden` and proceeds to point every resolvable
requested question at that bank, counting one update per requested id
that resolves. -/
theorem save_questions_to_bank_null_owner
    (db : DB) (userId : Int) (qids : List Int) (bid : Int)
    (bank_name : Option String) (newBankId : Int) (bank : QuestionBank)
    (hne : qids ≠ []) (hbid : bid ≠ 0)
    (hget : bank_crud_get db bid = some bank)
    (hnull : bank.user_id = none) :
    save_questions_to_bank db userId qids (some bid) bank_name newBankId =
      Except.ok
        ({ db with questions :=
            db.questions.map (fun q =>
              if q.id ∈ qids then { q with bank_id := some bid } else q) },
          qids.countP (fun i => decide (i ∈ db.questions.map Question.id))) := by
  unfold save_questions_to_bank
  rw [if_neg hne]
  have ht : intTruthy (some bid) = true := by simp [intTruthy, hbid]
  simp only [ht, Bool.not_true, Bool.false_and, Bool.false_eq_true, if_false,
    Option.getD_some, hget, hnull]
  simp only [intTruthy, Bool.false_and, Bool.false_eq_true, if_false]
  rw [foldl_addStep]
  simp

/-- Witness for `save_questions_to_bank_null_owner`: user 7 (not an
owner of anything) saves ids `[1, 99]` into the NULL-owner bank; the
stored question 1 is re-pointed and counted, the unresolvable id 99 is
skipped. -/
theorem save_questions_to_bank_null_owner_witness :
    (([1, 99] : List Int) ≠ [] ∧ (5 : Int) ≠ 0 ∧
        bank_crud_get exDB9 5 = some exBankNull ∧ exBankNull.user_id = none) ∧
      save_questions_to_bank exDB9 7 [1, 99] (some 5) none 10 =
        Except.ok
          ({ exDB9 with questions :=
              exDB9.questions.map (fun q =>
                if q.id ∈ ([1, 99] : List Int) then { q with bank_id := some 5 } else q) },
            ([1, 99] : List Int).countP
              (fun i => decide (i ∈ exDB9.questions.map Question.id))) :=
  ⟨⟨by decide, by decide, rfl, rfl⟩,
   save_questions_to_bank_null_owner exDB9 7 [1, 99] 5 none 10 exBankNull
     (by decide) (by decide) rfl rfl⟩

end Backend2

